import Mathlib

/-!
Verification development for the farming-grants-agreements-pdf service.

The service consumes agreement events from a queue, renders an agreement web
page to a PDF with a headless browser, and uploads the PDF to S3 under a
retention-based key.  This file shallowly embeds the core pipeline:

* `src/services/file-upload.js` — `upload`, `calculateRetentionPeriod`,
  `uploadPdf`;
* `src/services/pdf-generator.js` — `generatePdf`;
* `src/common/helpers/file-cleanup.js` — `removeTemporaryFile`;
* `src/common/helpers/sqs-message-processor.js` — `generateAndUploadPdf`,
  `uploadPdfToS3`, `isUrlDomainAllowed`, `processOfferAcceptedEvent`,
  `handleEvent`, `handleProcessingError`, `processMessage`.

External effects (browser steps, S3 put, filesystem calls) are passed in as
explicit `Except` outcomes; logging and side-effect counters are threaded
through a `Trace` record.  JavaScript dates are embedded at day granularity
(the code only ever uses calendar-day arithmetic from date-fns), with an
invalid date (`NaN` after arithmetic) embedded as `Option.none`.
-/

namespace FarmingGrantsPdf

/-- A JavaScript error value as the processor distinguishes them: only the
constructor (which fixes `error.name`) and the message matter to the code. -/
inductive JsError where
  | error (message : String)
  | typeError (message : String)
  | syntaxError (message : String)
deriving Repr, DecidableEq

/-- The JavaScript `error.name` property, used by `handleProcessingError`. -/
def JsError.name : JsError → String
  | .error _ => "Error"
  | .typeError _ => "TypeError"
  | .syntaxError _ => "SyntaxError"

/-- The JavaScript `error.message` property. -/
def JsError.message : JsError → String
  | .error m => m
  | .typeError m => m
  | .syntaxError m => m

/-- True when an `Except` value is an error (a rejected promise). -/
def isErr {ε α : Type} : Except ε α → Bool
  | .error _ => true
  | .ok _ => false

/-! ## Calendar dates (embedding of the date-fns calls used by the code)

`SDate` is a calendar date at day granularity.  The code builds dates with
`new Date()` / `new Date(endDate)` and only ever feeds them to `addMonths`,
`startOfMonth` and `differenceInYears`, all of which are calendar-level. -/

/-- A calendar date at day granularity: year, 1-based month, 1-based day. -/
structure SDate where
  year : Int
  month : Int
  day : Int
deriving Repr, DecidableEq

/-- Strict chronological order on dates (lexicographic year, month, day). -/
def SDate.lt (a b : SDate) : Prop :=
  a.year < b.year ∨
    (a.year = b.year ∧ (a.month < b.month ∨ (a.month = b.month ∧ a.day < b.day)))

instance (a b : SDate) : Decidable (SDate.lt a b) := by
  unfold SDate.lt; exact inferInstance

/-- Chronological order on dates. -/
def SDate.le (a b : SDate) : Prop := SDate.lt a b ∨ a = b

instance (a b : SDate) : Decidable (SDate.le a b) := by
  unfold SDate.le; exact inferInstance

/-- date-fns `compareAsc`: `-1` when the first date is earlier, `0` when
equal, `1` when later. -/
def compareAsc (a b : SDate) : Int :=
  if SDate.lt a b then -1 else if a = b then 0 else 1

/-- Gregorian leap-year rule, as JavaScript `Date` implements it. -/
def isLeapYear (y : Int) : Bool :=
  (y % 4 == 0 && y % 100 != 0) || y % 400 == 0

/-- Days in a given month of a given year. -/
def daysInMonth (y m : Int) : Int :=
  if m == 2 then (if isLeapYear y then 29 else 28)
  else if m == 4 || m == 6 || m == 9 || m == 11 then 30
  else 31

/-- date-fns `addMonths`: advance by `n` months, clamping the day of month to
the target month's length.  The code only uses `n = 1`, where the month
arithmetic below agrees with JavaScript's `setMonth` overflow rule. -/
def addMonths (d : SDate) (n : Int) : SDate :=
  let i := d.month - 1 + n
  let y := d.year + i / 12
  let m := i % 12 + 1
  { year := y, month := m, day := min d.day (daysInMonth y m) }

/-- date-fns `startOfMonth`: first day of the date's month. -/
def startOfMonth (d : SDate) : SDate := { d with day := 1 }

/-- The date with its year replaced by 1584, as date-fns `differenceInYears`
does with `setFullYear(1584)` to compare anniversaries in a fixed leap year. -/
def mdDate (d : SDate) : SDate := { year := 1584, month := d.month, day := d.day }

/-- date-fns `differenceInYears(a, b)`: the signed number of full calendar
years from `b` to `a`.  Follows the library source: a sign from `compareAsc`,
the absolute calendar-year difference, minus one when the anniversary in the
final year has not been reached. -/
def differenceInYears (a b : SDate) : Int :=
  let sign := compareAsc a b
  let diff : Int := ((a.year - b.year).natAbs : Int)
  let isLastYearNotFull := compareAsc (mdDate a) (mdDate b) = -sign
  sign * (diff - if isLastYearNotFull then 1 else 0)

/-! ## Configuration -/

/-- The `aws.s3.*` configuration values read by `file-upload.js`. -/
structure S3Config where
  bucket : String
  retentionBaseYears : Int
  baseTermThreshold : Int
  extendedTermThreshold : Int
  baseTermPrefix : String
  extendedTermPrefix : String
  maximumTermPrefix : String
deriving Repr, DecidableEq

/-- The configuration surface used by the processor: the S3 settings, the
URL host allow-list (`allowedDomains`) and the temp folder (`tmpPdfFolder`). -/
structure AppConfig where
  s3 : S3Config
  allowedDomains : List String
  tmpPdfFolder : String
deriving Repr, DecidableEq

/-- JavaScript `x <= t` where `x` may be `NaN` (embedded as `none`): every
comparison against `NaN` is false. -/
def jsLeNaN : Option Int → Int → Bool
  | none, _ => false
  | some a, b => a ≤ b

/-- Embedding of `calculateRetentionPeriod` (file-upload.js lines 73–96).
`now` is the injected clock (`new Date()`); `endDate` is the result of
`new Date(endDate)`, `none` when the argument is absent or unparseable, in
which case `differenceInYears` and hence `totalYears` are `NaN`. -/
def calculateRetentionPeriod (now : SDate) (s3cfg : S3Config)
    (endDate : Option SDate) : String :=
  let startDate := startOfMonth (addMonths now 1)
  let yearsFromStartToEnd : Option Int :=
    endDate.map (fun e => differenceInYears e startDate)
  let baseYears := s3cfg.retentionBaseYears
  let totalYears := yearsFromStartToEnd.map (· + baseYears)
  let baseThreshold := s3cfg.baseTermThreshold
  let extendedThreshold := s3cfg.extendedTermThreshold
  if jsLeNaN totalYears baseThreshold then s3cfg.baseTermPrefix
  else if jsLeNaN totalYears extendedThreshold then s3cfg.extendedTermPrefix
  else s3cfg.maximumTermPrefix

/-! ## Logging and side-effect trace -/

/-- Observable side effects accumulated while processing one message: log
lines by level, and counters for renderer invocations, uploader invocations,
local-file cleanup attempts, browser close attempts, and the S3 keys of
attempted object puts. -/
structure Trace where
  errors : List String
  warns : List String
  infos : List String
  renderCalls : Nat
  uploadCalls : Nat
  cleanupCalls : Nat
  closeCalls : Nat
  putKeys : List String
deriving Repr, DecidableEq

/-- The empty trace at the start of processing. -/
def Trace.init : Trace := ⟨[], [], [], 0, 0, 0, 0, []⟩

/-- Append an error-level log line. -/
def Trace.logError (t : Trace) (m : String) : Trace :=
  { t with errors := t.errors ++ [m] }

/-- Append a warn-level log line. -/
def Trace.logWarn (t : Trace) (m : String) : Trace :=
  { t with warns := t.warns ++ [m] }

/-- Append an info-level log line. -/
def Trace.logInfo (t : Trace) (m : String) : Trace :=
  { t with infos := t.infos ++ [m] }

/-! ## file-cleanup.js -/

/-- Embedding of `removeTemporaryFile` (file-cleanup.js): attempt
`fs.unlink`; when it fails, log a warning and swallow the failure.  The
outcome of the unlink call is passed in as `unlinkResult`. -/
def removeTemporaryFile (unlinkResult : Except JsError Unit)
    (filePath : String) (t : Trace) : Trace :=
  match unlinkResult with
  | .ok _ => { t with cleanupCalls := t.cleanupCalls + 1 }
  | .error e =>
    { t with
      cleanupCalls := t.cleanupCalls + 1,
      warns := t.warns ++
        ["Failed to cleanup local PDF file " ++ filePath ++ ": " ++ e.message] }

/-! ## file-upload.js: upload and uploadPdf -/

/-- The object `upload` resolves with on success. -/
structure UploadOutcome where
  success : Bool
  bucket : String
  key : String
  etag : String
  location : String
deriving Repr, DecidableEq

/-- Embedding of the inner `upload` (file-upload.js lines 29–65): read the
file, fail fast when the configured bucket name is empty, send the
`PutObjectCommand`, and on any failure log and re-raise.  `readFileResult`
and `putResult` are the outcomes of `fs.readFile` and `s3Client.send`; a
put attempt records its key in the trace. -/
def upload (readFileResult : Except JsError Unit)
    (putResult : Except JsError String) (s3cfg : S3Config)
    (filePath key : String) (t : Trace) :
    Except JsError UploadOutcome × Trace :=
  let t := t.logInfo
    ("Starting PDF upload to S3. key: " ++ key ++ ", filepath: " ++ filePath)
  match readFileResult with
  | .error e => (.error e, t.logError ("Error uploading PDF " ++ filePath ++ " to S3"))
  | .ok _ =>
    if s3cfg.bucket == "" then
      (.error (.error "S3 bucket name is not configured"),
       t.logError ("Error uploading PDF " ++ filePath ++ " to S3"))
    else
      let t := { t with putKeys := t.putKeys ++ [key] }
      match putResult with
      | .error e => (.error e, t.logError ("Error uploading PDF " ++ filePath ++ " to S3"))
      | .ok etag =>
        (.ok { success := true, bucket := s3cfg.bucket, key := key, etag := etag,
               location := "s3://" ++ s3cfg.bucket ++ "/" ++ key },
         t.logInfo ("PDF successfully uploaded to S3. key: " ++ key))

/-- JavaScript truthiness of a possibly-missing string value: `undefined`
and `""` are falsy, every other string truthy. -/
def jsTruthy : Option String → Bool
  | none => false
  | some s => s != ""

/-- JavaScript string coercion of a possibly-missing string value, as in a
template literal: `undefined` renders as `"undefined"`. -/
def jsStr : Option String → String
  | none => "undefined"
  | some s => s

/-- Embedding of `uploadPdf` (file-upload.js lines 108–133): compute the
retention prefix and the key `[prefix, agreementNumber, version, filename]`
filtered by truthiness and joined by `/`; attempt the upload; on failure log
the error (the `catch` block); in all cases run `removeTemporaryFile` (the
`finally` block); resolve with the upload result, which is `undefined`
(`none`) when the upload failed.  The function itself never rejects. -/
def uploadPdf (readFileResult : Except JsError Unit)
    (putResult : Except JsError String) (unlinkResult : Except JsError Unit)
    (now : SDate) (s3cfg : S3Config) (pdfPath filename : String)
    (agreementNumber version : Option String) (endDate : Option SDate)
    (t : Trace) : Except JsError (Option UploadOutcome) × Trace :=
  let t := { t with uploadCalls := t.uploadCalls + 1 }
  let pfx := calculateRetentionPeriod now s3cfg endDate
  let key := String.intercalate "/"
    ((([some pfx, agreementNumber, version, some filename] :
        List (Option String)).filter jsTruthy).map jsStr)
  match upload readFileResult putResult s3cfg pdfPath key t with
  | (.ok r, t) =>
    let t := removeTemporaryFile unlinkResult pdfPath t
    (.ok (some r), t)
  | (.error _, t) =>
    let t := t.logError
      ("Error in PDF " ++ filename ++ " generation and upload process")
    let t := removeTemporaryFile unlinkResult pdfPath t
    (.ok none, t)

deriving instance DecidableEq for Except

/-! ## pdf-generator.js -/

/-- Outcomes of the external calls `generatePdf` makes, in program order:
temp-dir check/creation, browser launch, new page, viewport, navigation,
auth header, in-page form script, navigation wait, PDF export, existence
check; plus the cleanup unlink used on failure, the browser close outcome,
and whether the browser reported itself disconnected before close. -/
structure PdfEnv where
  tmpDirResult : Except JsError Unit
  launchResult : Except JsError Unit
  newPageResult : Except JsError Unit
  setViewportResult : Except JsError Unit
  gotoResult : Except JsError Unit
  setHeadersResult : Except JsError Unit
  evaluateResult : Except JsError Unit
  waitNavResult : Except JsError Unit
  pdfResult : Except JsError Unit
  accessResult : Except JsError Unit
  unlinkResult : Except JsError Unit
  closeResult : Except JsError Unit
  disconnected : Bool
deriving Repr, DecidableEq

/-- The sequential body of `generatePdf`'s `try` block: each awaited step in
source order, short-circuiting at the first rejection. -/
def pdfStepsResult (env : PdfEnv) : Except JsError Unit := do
  let _ ← env.tmpDirResult
  let _ ← env.launchResult
  let _ ← env.newPageResult
  let _ ← env.setViewportResult
  let _ ← env.gotoResult
  let _ ← env.setHeadersResult
  let _ ← env.evaluateResult
  let _ ← env.waitNavResult
  let _ ← env.pdfResult
  env.accessResult

/-- True when the `browser` variable is non-null in the `finally` block:
the temp-dir step and the launch both resolved. -/
def browserLaunched (env : PdfEnv) : Bool :=
  !isErr env.tmpDirResult && !isErr env.launchResult

/-- The `finally` block of `generatePdf`: close the browser when it was
launched and has not self-disconnected; a close error is logged, never
raised. -/
def closeBrowserFinally (env : PdfEnv) (t : Trace) : Trace :=
  if browserLaunched env && !env.disconnected then
    match env.closeResult with
    | .ok _ => { t with closeCalls := t.closeCalls + 1 }
    | .error _ =>
      { t with closeCalls := t.closeCalls + 1,
               errors := t.errors ++ ["Error closing browser"] }
  else t

/-- Embedding of `generatePdf` (pdf-generator.js lines 157–246): the output
path is `path.resolve(tmpFolder, filename)` (the temp folder is an absolute
path and the filename relative, so this is `tmpFolder ++ "/" ++ filename`);
on success resolve with that path; on any step failure log the error, run
best-effort cleanup of the output file, and re-raise; always run the
`finally` close. -/
def generatePdf (env : PdfEnv) (tmpFolder filename : String) (t : Trace) :
    Except JsError String × Trace :=
  let t := { t with renderCalls := t.renderCalls + 1 }
  let outputPath := tmpFolder ++ "/" ++ filename
  match pdfStepsResult env with
  | .ok _ =>
    let t := t.logInfo
      ("PDF " ++ filename ++ " generated successfully and saved to " ++ outputPath)
    (.ok outputPath, closeBrowserFinally env t)
  | .error e =>
    let t := t.logError ("Error generating PDF " ++ filename)
    let t := removeTemporaryFile env.unlinkResult outputPath t
    (.error e, closeBrowserFinally env t)

/-! ## sqs-message-processor.js -/

/-- The `data` member of an event payload.  Every field a JSON object may
simply lack is an `Option`.  The two end-date fields carry the result of
`new Date(value)` on their value (`none` for an unparseable string), so that
date parsing does not have to be embedded: `agreementEndData` is the field
the code reads, `agreementEndDate` the field the spec documents. -/
structure PayloadData where
  agreementNumber : Option String
  version : Option String
  status : Option String
  agreementUrl : Option String
  agreementEndData : Option (Option SDate)
  agreementEndDate : Option (Option SDate)
deriving Repr, DecidableEq

/-- A parsed event payload. -/
structure Payload where
  type : String
  data : Option PayloadData
deriving Repr, DecidableEq

/-- Outcomes of the external calls one message's processing makes: the
renderer's environment, plus `fs.readFile`, the S3 put, and the uploader's
cleanup unlink. -/
structure Env where
  pdfEnv : PdfEnv
  readFileResult : Except JsError Unit
  putResult : Except JsError String
  unlinkResult : Except JsError Unit
deriving Repr, DecidableEq

/-- Embedding of `uploadPdfToS3` (sqs-message-processor.js lines 277–303):
await `uploadPdf` and log an info line reading `uploadResult.success`; any
rejection — including the `TypeError` from reading `.success` when
`uploadPdf` resolved with `undefined` — is caught and logged.  Never
raises. -/
def uploadPdfToS3 (env : Env) (now : SDate) (cfg : AppConfig)
    (pdfPath filename : String) (agreementNumber version : Option String)
    (endDate : Option SDate) (t : Trace) : Trace :=
  match uploadPdf env.readFileResult env.putResult env.unlinkResult now
      cfg.s3 pdfPath filename agreementNumber version endDate t with
  | (.ok (some _), t) =>
    t.logInfo ("Agreement " ++ jsStr agreementNumber ++
      " PDF uploaded successfully (true) to S3")
  | (.ok none, t) =>
    t.logError ("Failed to upload agreement " ++ jsStr agreementNumber ++
      " PDF " ++ pdfPath ++ " to S3")
  | (.error _, t) =>
    t.logError ("Failed to upload agreement " ++ jsStr agreementNumber ++
      " PDF " ++ pdfPath ++ " to S3")

/-- Embedding of `generateAndUploadPdf` (sqs-message-processor.js lines
231–265): read `agreementNumber`, `version` and the end date from the field
`agreementEndData`; build the filename `agreementNumber-version.pdf`
(template-literal coercion); on render failure log and resolve with the
still-empty `pdfPath`; on render success hand off to `uploadPdfToS3` and
resolve with the render path.  Never raises. -/
def generateAndUploadPdf (env : Env) (now : SDate) (cfg : AppConfig)
    (data : PayloadData) (t : Trace) : Except JsError String × Trace :=
  let agreementNumber := data.agreementNumber
  let version := data.version
  let endDate := data.agreementEndData.bind id
  let filename := jsStr agreementNumber ++ "-" ++ jsStr version ++ ".pdf"
  let t := t.logInfo ("Generating Agreement " ++ jsStr agreementNumber ++
    "-" ++ jsStr version ++ " PDF from agreement URL")
  match generatePdf env.pdfEnv cfg.tmpPdfFolder filename t with
  | (.error _, t) =>
    (.ok "", t.logError ("Failed to generate agreement " ++
      jsStr agreementNumber ++ "-" ++ jsStr version ++ " PDF from URL"))
  | (.ok pdfPath, t) =>
    let t := t.logInfo
      ("PDF " ++ filename ++ " generated successfully and save to " ++ pdfPath)
    let t := uploadPdfToS3 env now cfg pdfPath filename agreementNumber
      version endDate t
    (.ok pdfPath, t)

/-- Lowercase an ASCII letter, as WHATWG domain processing does. -/
def asciiLower (c : Char) : Char :=
  if 'A' ≤ c ∧ c ≤ 'Z' then Char.ofNat (c.toNat + 32) else c

/-- The WHATWG forbidden host code points. -/
def isForbiddenHostChar (c : Char) : Bool :=
  c.toNat = 0 || c == '\t' || c == '\n' || c == '\r' || c == ' ' ||
  c == '#' || c == '/' || c == ':' || c == '<' || c == '>' || c == '?' ||
  c == '@' || c == '[' || c == '\\' || c == ']' || c == '^' || c == '|'

/-- The WHATWG forbidden domain code points (checked after
percent-decoding): the forbidden host code points plus C0 controls,
`%` and U+007F. -/
def isForbiddenDomainChar (c : Char) : Bool :=
  isForbiddenHostChar c || c.toNat < 32 || c == '%' || c.toNat = 127

/-- Numeric value of an ASCII hex digit. -/
def hexVal (c : Char) : Option Nat :=
  if '0' ≤ c ∧ c ≤ '9' then some (c.toNat - 48)
  else if 'a' ≤ c ∧ c ≤ 'f' then some (c.toNat - 87)
  else if 'A' ≤ c ∧ c ≤ 'F' then some (c.toNat - 55)
  else none

/-- Percent-decoding as domain parsing applies it: a valid `%XX` escape
becomes its byte; an invalid escape keeps a literal `%`, a forbidden
domain code point, so it is a failure already here. -/
def percentDecode : List Char → Option (List Char)
  | [] => some []
  | '%' :: a :: b :: rest =>
    match hexVal a, hexVal b with
    | some ha, some hb =>
      (percentDecode rest).map (fun r => Char.ofNat (16 * ha + hb) :: r)
    | _, _ => none
  | '%' :: _ => none
  | c :: rest => (percentDecode rest).map (fun r => c :: r)

/-- Strip leading and trailing C0 controls and spaces (WHATWG input
preparation; tabs and newlines are removed separately). -/
def trimC0 (cs : List Char) : List Char :=
  ((cs.dropWhile (fun c => c.toNat ≤ 32)).reverse.dropWhile
    (fun c => c.toNat ≤ 32)).reverse

/-- Scheme tail: a lowercased alphanumeric/`+`/`-`/`.` run ended by `:`;
anything else fails (without a base URL, input with no valid scheme
throws). -/
def schemeAux : List Char → List Char → Option (String × List Char)
  | acc, ':' :: rest => some (String.mk acc.reverse, rest)
  | acc, c :: rest =>
    if c.isAlphanum || c == '+' || c == '-' || c == '.' then
      schemeAux (asciiLower c :: acc) rest
    else none
  | _, [] => none

/-- Split off the scheme, which must start with an ASCII letter. -/
def schemeSplit (cs : List Char) : Option (String × List Char) :=
  match cs with
  | c :: rest => if c.isAlpha then schemeAux [asciiLower c] rest else none
  | [] => none

/-- The special schemes of the WHATWG URL Standard, `file` apart. -/
def specialSchemes : List String := ["http", "https", "ws", "wss", "ftp"]

/-- Skip every leading `/` or `\` (the special-authority-slashes states:
special URLs reach the authority whatever slashes follow the scheme). -/
def skipSlashes : List Char → List Char
  | [] => []
  | c :: rest => if c == '/' || c == '\\' then skipSlashes rest else c :: rest

/-- The authority span of a special URL: up to the first `/`, `\`, `?`
or `#`. -/
def specialAuthSpan (cs : List Char) : List Char :=
  cs.takeWhile (fun c => !(c == '/' || c == '\\' || c == '?' || c == '#'))

/-- Strip the userinfo: the host is what follows the last `@` of the
authority. -/
def afterLastAt (cs : List Char) : List Char :=
  (cs.reverse.takeWhile (fun c => !(c == '@'))).reverse

/-- Split a host-and-port span at the first `:`. -/
def splitPort (cs : List Char) : List Char × Option (List Char) :=
  let h := cs.takeWhile (fun c => !(c == ':'))
  match cs.drop h.length with
  | ':' :: p => (h, some p)
  | _ => (h, none)

/-- Value of a digit run, most significant first. -/
def digitsToNat (cs : List Char) : Nat :=
  cs.foldl (fun acc c => 10 * acc + (c.toNat - 48)) 0

/-- A port is valid when absent, empty, or all digits with value at most
65535. -/
def portValid : Option (List Char) → Bool
  | none => true
  | some p => p.all Char.isDigit && (p.isEmpty || digitsToNat p ≤ 65535)

/-- Host parsing for special schemes (domains): percent-decode, reject an
empty host and forbidden domain code points, lowercase ASCII letters. -/
def hostAsDomain (cs : List Char) : Option String :=
  match percentDecode cs with
  | none => none
  | some d =>
    if d.isEmpty then none
    else if d.any isForbiddenDomainChar then none
    else some (String.mk (d.map asciiLower))

/-- A Windows drive letter (`C:` or `C|`), which `file` URLs treat as the
start of the path, leaving the host empty. -/
def isWindowsDrive : List Char → Bool
  | [l, s] => l.isAlpha && (s == ':' || s == '|')
  | _ => false

/-- Host parsing for `file` URLs: as for domains, but the host may be
empty, `localhost` becomes `""`, and a Windows drive letter is a path. -/
def fileHost (cs : List Char) : Option String :=
  if isWindowsDrive cs then some ""
  else if cs.isEmpty then some ""
  else
    match percentDecode cs with
    | none => none
    | some d =>
      if d.any isForbiddenDomainChar then none
      else
        let h := String.mk (d.map asciiLower)
        if h == "localhost" then some "" else some h

/-- Opaque hosts (non-special schemes): forbidden host code points fail;
otherwise the host is kept verbatim — no decoding, no lowercasing. -/
def opaqueHost (cs : List Char) : Option String :=
  if cs.any isForbiddenHostChar then none
  else some (String.mk cs)

/-- Modelled from the platform's `new URL(url).hostname` call in
`isUrlDomainAllowed`, following the WHATWG URL Standard's basic parser
with no base URL: input trimming, scheme parsing and lowercasing,
special-scheme slash handling (so `https:example.com` has a host),
userinfo stripping at the last `@`, port validation, percent-decoding
plus ASCII lowercasing for special-scheme domains, verbatim opaque hosts
for non-special schemes (`mailto:x` parses with host `""`), and the
`file` host rules (`localhost`, Windows drive letters).  `none` embeds
the thrown `TypeError`.  The model is exact on ASCII URLs whose hosts are
not IP literals, not IPv4-shaped, and not IDNA/punycode labels — the
fragment `urlInModeledFragment` describes; IP canonicalization and IDNA
are beyond it. -/
def urlHostname (url : String) : Option String :=
  let cs := (trimC0 url.data).filter
    (fun c => !(c == '\t' || c == '\n' || c == '\r'))
  match schemeSplit cs with
  | none => none
  | some (scheme, rest) =>
    if specialSchemes.contains scheme then
      let hp := splitPort (afterLastAt (specialAuthSpan (skipSlashes rest)))
      if !portValid hp.2 then none else hostAsDomain hp.1
    else if scheme == "file" then
      match rest with
      | a :: b :: r =>
        if (a == '/' || a == '\\') && (b == '/' || b == '\\') then
          fileHost (r.takeWhile
            (fun c => !(c == '/' || c == '\\' || c == '?' || c == '#')))
        else some ""
      | _ => some ""
    else
      match rest with
      | '/' :: '/' :: r =>
        let hp := splitPort (afterLastAt (r.takeWhile
          (fun c => !(c == '/' || c == '?' || c == '#'))))
        if !portValid hp.2 then none else opaqueHost hp.1
      | _ => some ""

/-- Embedding of `isUrlDomainAllowed` (sqs-message-processor.js lines
310–313): `new URL(url).hostname` — which throws a `TypeError` on an
unparseable URL — then membership in the configured `allowedDomains`. -/
def isUrlDomainAllowed (cfg : AppConfig) (url : String) :
    Except JsError Bool :=
  match urlHostname url with
  | none => .error (.typeError "Invalid URL")
  | some domain => .ok (cfg.allowedDomains.contains domain)

/-- Embedding of `processOfferAcceptedEvent` (sqs-message-processor.js lines
322–346): skip (resolve `""`) when `payload?.data?.agreementUrl` is falsy,
when the status is not `"accepted"`, or when the URL's host is not on the
allow-list; otherwise run `generateAndUploadPdf`.  A `TypeError` thrown by
the URL parse inside `isUrlDomainAllowed` propagates. -/
def processOfferAcceptedEvent (env : Env) (now : SDate) (cfg : AppConfig)
    (payload : Payload) (t : Trace) : Except JsError String × Trace :=
  let t := t.logInfo "Processing agreement offer from event"
  match payload.data with
  | none => (.ok "", t)
  | some data =>
    if !jsTruthy data.agreementUrl then (.ok "", t)
    else if data.status != some "accepted" then
      (.ok "", t.logInfo ("Skipping PDF generation for status: " ++
        jsStr data.status))
    else
      match isUrlDomainAllowed cfg (jsStr data.agreementUrl) with
      | .error e => (.error e, t)
      | .ok false =>
        (.ok "", t.logWarn ("Skipping PDF generation for URL: " ++
          jsStr data.agreementUrl ++ " domain is not on allow list"))
      | .ok true => generateAndUploadPdf env now cfg data t

/-- JavaScript `s.includes(marker)`: substring containment. -/
def strIncludes (s marker : String) : Bool :=
  decide (marker.toList <:+: s.toList)

/-- Embedding of `handleEvent` (sqs-message-processor.js lines 355–361):
reject with `Error("Unrecognized event type")` unless the payload type
contains the marker `"agreement.status.updated"`; otherwise delegate to
`processOfferAcceptedEvent`. -/
def handleEvent (env : Env) (now : SDate) (cfg : AppConfig)
    (payload : Payload) (t : Trace) : Except JsError String × Trace :=
  if !strIncludes payload.type "agreement.status.updated" then
    (.error (.error "Unrecognized event type"), t)
  else
    processOfferAcceptedEvent env now cfg payload t

/-- The Boom errors `handleProcessingError` can throw: `badData` (HTTP 422)
for a malformed message, or a boomified generic processing error (HTTP 500)
carrying the original message and the causing error. -/
inductive BoomError where
  | badData (origMessage : Option Payload) (errMessage : String)
  | processingError (origMessage : Option Payload) (cause : JsError)
deriving Repr, DecidableEq

/-- Embedding of `handleProcessingError` (sqs-message-processor.js lines
370–388): log, then throw `Boom.badData` when the error is a `SyntaxError`
(JSON parse failure) and a boomified processing error otherwise. -/
def handleProcessingError (e : JsError) (body : Option Payload) (t : Trace) :
    BoomError × Trace :=
  let t := t.logError "Error processing message"
  if e.name == "SyntaxError" then (.badData body "Invalid message format", t)
  else (.processingError body e, t)

/-- An SQS message: `body` is the result of `JSON.parse(message.Body)`,
`none` when the body is not valid JSON (the parse throws a `SyntaxError`). -/
structure SqsMessage where
  body : Option Payload
deriving Repr, DecidableEq

/-- Embedding of `processMessage` (sqs-message-processor.js lines 396–404):
parse the body, delegate to `handleEvent`, and map any caught error through
`handleProcessingError`. -/
def processMessage (env : Env) (now : SDate) (cfg : AppConfig)
    (m : SqsMessage) (t : Trace) : Except BoomError Unit × Trace :=
  match m.body with
  | none =>
    let p := handleProcessingError (.syntaxError "Unexpected token in JSON")
      m.body t
    (.error p.1, p.2)
  | some payload =>
    let t := t.logInfo "Processing message body"
    match handleEvent env now cfg payload t with
    | (.ok _, t) => (.ok (), t)
    | (.error e, t) =>
      let p := handleProcessingError e m.body t
      (.error p.1, p.2)

/-! ## Derived definitions used to state the verified properties -/

/-- The three retention tiers, in ascending order of retention. -/
inductive RetentionTier where
  | base
  | extended
  | maximum
deriving Repr, DecidableEq

/-- The position of a tier in the order base ≤ extended ≤ maximum. -/
def tierVal : RetentionTier → Nat
  | .base => 0
  | .extended => 1
  | .maximum => 2

/-- The configured S3 prefix of a tier. -/
def tierPfx (s3cfg : S3Config) : RetentionTier → String
  | .base => s3cfg.baseTermPrefix
  | .extended => s3cfg.extendedTermPrefix
  | .maximum => s3cfg.maximumTermPrefix

/-- The branch `calculateRetentionPeriod` takes, as a tier. -/
def calculateRetentionTier (now : SDate) (s3cfg : S3Config)
    (endDate : Option SDate) : RetentionTier :=
  let startDate := startOfMonth (addMonths now 1)
  let totalYears := endDate.map
    (fun e => differenceInYears e startDate + s3cfg.retentionBaseYears)
  if jsLeNaN totalYears s3cfg.baseTermThreshold then .base
  else if jsLeNaN totalYears s3cfg.extendedTermThreshold then .extended
  else .maximum

/-- `totalYears` of `calculateRetentionPeriod` for a valid end date. -/
def totalYearsAt (now : SDate) (s3cfg : S3Config) (e : SDate) : Int :=
  differenceInYears e (startOfMonth (addMonths now 1)) +
    s3cfg.retentionBaseYears

/-- The `k`-th anniversary of a first-of-month date. -/
def anniversary (s : SDate) (k : Int) : SDate :=
  { year := s.year + k, month := s.month, day := 1 }

/-- Month-day (anniversary) order, ignoring the year. -/
def mdLt (a b : SDate) : Prop :=
  a.month < b.month ∨ (a.month = b.month ∧ a.day < b.day)

instance (a b : SDate) : Decidable (mdLt a b) := by
  unfold mdLt; exact inferInstance

/-- The S3 object key as `uploadPdf` builds it: the four components
filtered by truthiness and joined by `/`. -/
def s3ObjectKey (pfx : String) (num ver : Option String)
    (filename : String) : String :=
  String.intercalate "/"
    ((([some pfx, num, ver, some filename] :
        List (Option String)).filter jsTruthy).map jsStr)

/-- The filename `generateAndUploadPdf` builds for a payload's data:
`agreementNumber-version.pdf` under template-literal coercion. -/
def agreementFilename (data : PayloadData) : String :=
  jsStr data.agreementNumber ++ "-" ++ jsStr data.version ++ ".pdf"

/-- The event-type marker `handleEvent` looks for. -/
def eventMarker : String := "agreement.status.updated"

/-- Gate 1 of the event handler: the payload type contains the marker. -/
def typeMatches (payload : Payload) : Bool :=
  strIncludes payload.type eventMarker

/-- Gate 2: `payload?.data?.agreementUrl` is truthy. -/
def hasUrl (payload : Payload) : Bool :=
  jsTruthy (payload.data.bind PayloadData.agreementUrl)

/-- Gate 3: `payload.data.status` equals `"accepted"`. -/
def statusAccepted (payload : Payload) : Bool :=
  (payload.data.bind PayloadData.status) == some "accepted"

/-- The hostname of the payload's agreement URL, when the URL parses. -/
def payloadHost (payload : Payload) : Option String :=
  match payload.data with
  | none => none
  | some data => urlHostname (jsStr data.agreementUrl)

/-- Gate 4: the agreement URL parses and its host is allow-listed. -/
def hostAllowed (cfg : AppConfig) (payload : Payload) : Bool :=
  match payloadHost payload with
  | none => false
  | some h => cfg.allowedDomains.contains h

/-- The retention configuration exercised by the repository's test suite. -/
def testS3Config : S3Config :=
  { bucket := "test-bucket", retentionBaseYears := 7,
    baseTermThreshold := 10, extendedTermThreshold := 15,
    baseTermPrefix := "base", extendedTermPrefix := "extended",
    maximumTermPrefix := "maximum" }

/-- A processor configuration with `example.com` allow-listed. -/
def testConfig : AppConfig :=
  { s3 := testS3Config, allowedDomains := ["example.com"],
    tmpPdfFolder := "/tmp/pdfs" }

/-- A renderer environment in which every external step resolves. -/
def allOkPdfEnv : PdfEnv :=
  ⟨.ok (), .ok (), .ok (), .ok (), .ok (), .ok (), .ok (), .ok (), .ok (),
   .ok (), .ok (), .ok (), false⟩

/-- A processing environment in which every external call resolves. -/
def allOkEnv : Env := ⟨allOkPdfEnv, .ok (), .ok "etag-1", .ok ()⟩

/-- A fixed processing instant. -/
def testNow : SDate := ⟨2024, 1, 15⟩

/-- An accepted agreement event's data with an allow-listed URL. -/
def acceptedData : PayloadData :=
  { agreementNumber := some "SFI123456789", version := some "1",
    status := some "accepted",
    agreementUrl := some "https://example.com/agreement/SFI123456789",
    agreementEndData := some (some ⟨2027, 1, 1⟩),
    agreementEndDate := none }

/-- An accepted agreement event with an allow-listed URL. -/
def acceptedPayload : Payload :=
  ⟨"io.onsite.agreement.status.updated", some acceptedData⟩

/-- An otherwise-accepted event whose agreement URL does not parse. -/
def badUrlPayload : Payload :=
  ⟨"agreement.status.updated",
   some { acceptedData with agreementUrl := some "not-a-url" }⟩

/-- Event data that carries its end date only under the spec-documented
name `agreementEndDate`, not under `agreementEndData`, the field the code
reads. -/
def endDateMisnamedData : PayloadData :=
  { agreementNumber := some "SFI123456789", version := some "1",
    status := some "accepted",
    agreementUrl := some "https://example.com/agreement/SFI123456789",
    agreementEndData := none,
    agreementEndDate := some (some ⟨2027, 1, 1⟩) }

/-! ## Basic lemmas about the trace-threading functions -/

theorem removeTemporaryFile_fields (ur : Except JsError Unit)
    (fp : String) (t : Trace) :
    (removeTemporaryFile ur fp t).cleanupCalls = t.cleanupCalls + 1 ∧
    (removeTemporaryFile ur fp t).renderCalls = t.renderCalls ∧
    (removeTemporaryFile ur fp t).uploadCalls = t.uploadCalls ∧
    (removeTemporaryFile ur fp t).putKeys = t.putKeys ∧
    (removeTemporaryFile ur fp t).errors = t.errors ∧
    (removeTemporaryFile ur fp t).infos = t.infos := by
  cases ur <;> simp [removeTemporaryFile]

theorem removeTemporaryFile_warns_ok (fp : String) (t : Trace) :
    (removeTemporaryFile (.ok ()) fp t).warns = t.warns := by
  simp [removeTemporaryFile]

theorem removeTemporaryFile_warns_error (e : JsError) (fp : String)
    (t : Trace) :
    (removeTemporaryFile (.error e) fp t).warns =
      t.warns ++ ["Failed to cleanup local PDF file " ++ fp ++ ": " ++
        e.message] := by
  simp [removeTemporaryFile]

theorem upload_trace_fields (rf : Except JsError Unit)
    (pr : Except JsError String) (s3cfg : S3Config) (fp k : String)
    (t : Trace) :
    ((upload rf pr s3cfg fp k t).2.renderCalls = t.renderCalls ∧
     (upload rf pr s3cfg fp k t).2.uploadCalls = t.uploadCalls ∧
     (upload rf pr s3cfg fp k t).2.cleanupCalls = t.cleanupCalls ∧
     (upload rf pr s3cfg fp k t).2.warns = t.warns) := by
  unfold upload Trace.logInfo Trace.logError
  cases rf <;> simp
  by_cases hb : s3cfg.bucket = "" <;> simp [hb]
  cases pr <;> simp

theorem upload_err_iff (rf : Except JsError Unit)
    (pr : Except JsError String) (s3cfg : S3Config) (fp k : String)
    (t : Trace) :
    isErr (upload rf pr s3cfg fp k t).1 =
      (isErr rf || s3cfg.bucket == "" || isErr pr) := by
  unfold upload Trace.logInfo Trace.logError
  cases rf <;> simp [isErr]
  by_cases hb : s3cfg.bucket = "" <;> simp [hb]
  cases pr <;> simp [isErr, hb]

theorem upload_ok_shape (rf : Except JsError Unit)
    (pr : Except JsError String) (s3cfg : S3Config) (fp k : String)
    (t : Trace) (r : UploadOutcome)
    (h : (upload rf pr s3cfg fp k t).1 = .ok r) :
    r.key = k ∧ r.bucket = s3cfg.bucket ∧ r.success = true := by
  unfold upload Trace.logInfo Trace.logError at h
  cases rf with
  | error e => simp at h
  | ok u =>
    simp at h
    by_cases hb : s3cfg.bucket = ""
    · simp [hb] at h
    · simp [hb] at h
      cases pr with
      | error e => simp at h
      | ok etag =>
        simp at h
        subst h
        exact ⟨rfl, rfl, rfl⟩

theorem upload_putKeys (rf : Except JsError Unit)
    (pr : Except JsError String) (s3cfg : S3Config) (fp k : String)
    (t : Trace) :
    (upload rf pr s3cfg fp k t).2.putKeys =
      (if isErr rf = false ∧ (s3cfg.bucket == "") = false
       then t.putKeys ++ [k] else t.putKeys) := by
  unfold upload Trace.logInfo Trace.logError
  cases rf <;> simp [isErr]
  by_cases hb : s3cfg.bucket = "" <;> simp [hb]
  cases pr <;> simp [hb]

/-! ## Lemmas about uploadPdf -/

theorem uploadPdf_eq (rf : Except JsError Unit) (pr : Except JsError String)
    (ur : Except JsError Unit) (now : SDate) (s3cfg : S3Config)
    (pdfPath filename : String) (num ver : Option String)
    (ed : Option SDate) (t : Trace) :
    uploadPdf rf pr ur now s3cfg pdfPath filename num ver ed t =
      (match upload rf pr s3cfg pdfPath
          (s3ObjectKey (calculateRetentionPeriod now s3cfg ed) num ver
            filename) { t with uploadCalls := t.uploadCalls + 1 } with
       | (.ok r, t) =>
         (.ok (some r), removeTemporaryFile ur pdfPath t)
       | (.error _, t) =>
         (.ok none, removeTemporaryFile ur pdfPath (t.logError
           ("Error in PDF " ++ filename ++
             " generation and upload process")))) := by
  simp only [uploadPdf, s3ObjectKey]

theorem uploadPdf_never_raises (rf : Except JsError Unit)
    (pr : Except JsError String) (ur : Except JsError Unit) (now : SDate)
    (s3cfg : S3Config) (pdfPath filename : String)
    (num ver : Option String) (ed : Option SDate) (t : Trace) :
    isErr (uploadPdf rf pr ur now s3cfg pdfPath filename num ver ed t).1 =
      false := by
  rw [uploadPdf_eq]
  rcases h : upload rf pr s3cfg pdfPath
      (s3ObjectKey (calculateRetentionPeriod now s3cfg ed) num ver filename)
      { t with uploadCalls := t.uploadCalls + 1 } with ⟨res, t2⟩
  cases res <;> simp [isErr]

theorem uploadPdf_none_iff (rf : Except JsError Unit)
    (pr : Except JsError String) (ur : Except JsError Unit) (now : SDate)
    (s3cfg : S3Config) (pdfPath filename : String)
    (num ver : Option String) (ed : Option SDate) (t : Trace) :
    ((uploadPdf rf pr ur now s3cfg pdfPath filename num ver ed t).1 =
        .ok none) ↔
      (isErr rf || s3cfg.bucket == "" || isErr pr) = true := by
  rw [uploadPdf_eq]
  have he := upload_err_iff rf pr s3cfg pdfPath
    (s3ObjectKey (calculateRetentionPeriod now s3cfg ed) num ver filename)
    { t with uploadCalls := t.uploadCalls + 1 }
  rcases h : upload rf pr s3cfg pdfPath
      (s3ObjectKey (calculateRetentionPeriod now s3cfg ed) num ver filename)
      { t with uploadCalls := t.uploadCalls + 1 } with ⟨res, t2⟩
  rw [h] at he
  cases res <;> simp [isErr] at he ⊢ <;> exact he

theorem uploadPdf_some_key (rf : Except JsError Unit)
    (pr : Except JsError String) (ur : Except JsError Unit) (now : SDate)
    (s3cfg : S3Config) (pdfPath filename : String)
    (num ver : Option String) (ed : Option SDate) (t : Trace)
    (r : UploadOutcome)
    (h : (uploadPdf rf pr ur now s3cfg pdfPath filename num ver ed t).1 =
      .ok (some r)) :
    r.key = s3ObjectKey (calculateRetentionPeriod now s3cfg ed) num ver
        filename ∧
      r.bucket = s3cfg.bucket ∧ r.success = true := by
  rw [uploadPdf_eq] at h
  rcases hu : upload rf pr s3cfg pdfPath
      (s3ObjectKey (calculateRetentionPeriod now s3cfg ed) num ver filename)
      { t with uploadCalls := t.uploadCalls + 1 } with ⟨res, t2⟩
  rw [hu] at h
  cases res with
  | error e => simp at h
  | ok a =>
    simp at h
    subst h
    exact upload_ok_shape rf pr s3cfg pdfPath _ _ _ (by rw [hu])

theorem uploadPdf_trace (rf : Except JsError Unit)
    (pr : Except JsError String) (ur : Except JsError Unit) (now : SDate)
    (s3cfg : S3Config) (pdfPath filename : String)
    (num ver : Option String) (ed : Option SDate) (t : Trace) :
    (uploadPdf rf pr ur now s3cfg pdfPath filename num ver ed t).2.cleanupCalls
        = t.cleanupCalls + 1 ∧
    (uploadPdf rf pr ur now s3cfg pdfPath filename num ver ed t).2.renderCalls
        = t.renderCalls ∧
    (uploadPdf rf pr ur now s3cfg pdfPath filename num ver ed t).2.uploadCalls
        = t.uploadCalls + 1 := by
  rw [uploadPdf_eq]
  have hf := upload_trace_fields rf pr s3cfg pdfPath
    (s3ObjectKey (calculateRetentionPeriod now s3cfg ed) num ver filename)
    { t with uploadCalls := t.uploadCalls + 1 }
  rcases hu : upload rf pr s3cfg pdfPath
      (s3ObjectKey (calculateRetentionPeriod now s3cfg ed) num ver filename)
      { t with uploadCalls := t.uploadCalls + 1 } with ⟨res, t2⟩
  rw [hu] at hf
  rcases hf with ⟨h1, h2, h3, h4⟩
  cases res <;> cases ur <;>
    simp_all [removeTemporaryFile, Trace.logError]

theorem uploadPdf_fst_indep_unlink (rf : Except JsError Unit)
    (pr : Except JsError String) (ur ur' : Except JsError Unit)
    (now : SDate) (s3cfg : S3Config) (pdfPath filename : String)
    (num ver : Option String) (ed : Option SDate) (t : Trace) :
    (uploadPdf rf pr ur now s3cfg pdfPath filename num ver ed t).1 =
      (uploadPdf rf pr ur' now s3cfg pdfPath filename num ver ed t).1 := by
  rw [uploadPdf_eq, uploadPdf_eq]
  rcases hu : upload rf pr s3cfg pdfPath
      (s3ObjectKey (calculateRetentionPeriod now s3cfg ed) num ver filename)
      { t with uploadCalls := t.uploadCalls + 1 } with ⟨res, t2⟩
  cases res <;> simp

theorem uploadPdf_errors_indep_unlink (rf : Except JsError Unit)
    (pr : Except JsError String) (ur ur' : Except JsError Unit)
    (now : SDate) (s3cfg : S3Config) (pdfPath filename : String)
    (num ver : Option String) (ed : Option SDate) (t : Trace) :
    (uploadPdf rf pr ur now s3cfg pdfPath filename num ver ed t).2.errors =
      (uploadPdf rf pr ur' now s3cfg pdfPath filename num ver ed
        t).2.errors := by
  rw [uploadPdf_eq, uploadPdf_eq]
  rcases hu : upload rf pr s3cfg pdfPath
      (s3ObjectKey (calculateRetentionPeriod now s3cfg ed) num ver filename)
      { t with uploadCalls := t.uploadCalls + 1 } with ⟨res, t2⟩
  cases res <;> cases ur <;> cases ur' <;>
    simp [removeTemporaryFile, Trace.logError]

theorem uploadPdf_warns (rf : Except JsError Unit)
    (pr : Except JsError String) (e : JsError) (now : SDate)
    (s3cfg : S3Config) (pdfPath filename : String)
    (num ver : Option String) (ed : Option SDate) (t : Trace) :
    (uploadPdf rf pr (.error e) now s3cfg pdfPath filename num ver ed
        t).2.warns =
      t.warns ++ ["Failed to cleanup local PDF file " ++ pdfPath ++ ": " ++
        e.message] ∧
    (uploadPdf rf pr (.ok ()) now s3cfg pdfPath filename num ver ed
        t).2.warns = t.warns := by
  rw [uploadPdf_eq, uploadPdf_eq]
  have hf := upload_trace_fields rf pr s3cfg pdfPath
    (s3ObjectKey (calculateRetentionPeriod now s3cfg ed) num ver filename)
    { t with uploadCalls := t.uploadCalls + 1 }
  rcases hu : upload rf pr s3cfg pdfPath
      (s3ObjectKey (calculateRetentionPeriod now s3cfg ed) num ver filename)
      { t with uploadCalls := t.uploadCalls + 1 } with ⟨res, t2⟩
  rw [hu] at hf
  rcases hf with ⟨h1, h2, h3, h4⟩
  cases res <;> simp_all [removeTemporaryFile, Trace.logError]

theorem uploadPdf_putKeys (rf : Except JsError Unit)
    (pr : Except JsError String) (ur : Except JsError Unit) (now : SDate)
    (s3cfg : S3Config) (pdfPath filename : String)
    (num ver : Option String) (ed : Option SDate) (t : Trace) :
    (uploadPdf rf pr ur now s3cfg pdfPath filename num ver ed t).2.putKeys =
      (if isErr rf = false ∧ (s3cfg.bucket == "") = false
       then t.putKeys ++
         [s3ObjectKey (calculateRetentionPeriod now s3cfg ed) num ver
           filename]
       else t.putKeys) := by
  rw [uploadPdf_eq]
  have hp := upload_putKeys rf pr s3cfg pdfPath
    (s3ObjectKey (calculateRetentionPeriod now s3cfg ed) num ver filename)
    { t with uploadCalls := t.uploadCalls + 1 }
  rcases hu : upload rf pr s3cfg pdfPath
      (s3ObjectKey (calculateRetentionPeriod now s3cfg ed) num ver filename)
      { t with uploadCalls := t.uploadCalls + 1 } with ⟨res, t2⟩
  rw [hu] at hp
  cases res <;> cases ur <;>
    simp_all [removeTemporaryFile, Trace.logError]

/-! ## Lemmas about generatePdf -/

theorem closeBrowserFinally_fields (env : PdfEnv) (t : Trace) :
    (closeBrowserFinally env t).renderCalls = t.renderCalls ∧
    (closeBrowserFinally env t).uploadCalls = t.uploadCalls ∧
    (closeBrowserFinally env t).cleanupCalls = t.cleanupCalls ∧
    (closeBrowserFinally env t).putKeys = t.putKeys ∧
    (closeBrowserFinally env t).warns = t.warns ∧
    t.errors <+: (closeBrowserFinally env t).errors := by
  unfold closeBrowserFinally
  cases hb : browserLaunched env && !env.disconnected <;> simp
  cases env.closeResult <;> simp

theorem generatePdf_fst (env : PdfEnv) (tf fn : String) (t : Trace) :
    (generatePdf env tf fn t).1 =
      (match pdfStepsResult env with
       | .ok _ => .ok (tf ++ "/" ++ fn)
       | .error e => .error e) := by
  unfold generatePdf
  have hc := closeBrowserFinally_fields env
  rcases h : pdfStepsResult env with e | u <;> simp

theorem generatePdf_renderCalls (env : PdfEnv) (tf fn : String)
    (t : Trace) :
    (generatePdf env tf fn t).2.renderCalls = t.renderCalls + 1 ∧
    (generatePdf env tf fn t).2.uploadCalls = t.uploadCalls ∧
    (generatePdf env tf fn t).2.putKeys = t.putKeys := by
  unfold generatePdf
  rcases h : pdfStepsResult env with e | u
  · have hr := removeTemporaryFile_fields env.unlinkResult (tf ++ "/" ++ fn)
      (Trace.logError { t with renderCalls := t.renderCalls + 1 }
        ("Error generating PDF " ++ fn))
    have hc := closeBrowserFinally_fields env
      (removeTemporaryFile env.unlinkResult (tf ++ "/" ++ fn)
        (Trace.logError { t with renderCalls := t.renderCalls + 1 }
          ("Error generating PDF " ++ fn)))
    simp_all [Trace.logError]
  · have hc := closeBrowserFinally_fields env
      (Trace.logInfo { t with renderCalls := t.renderCalls + 1 }
        ("PDF " ++ fn ++ " generated successfully and saved to " ++
          (tf ++ "/" ++ fn)))
    simp_all [Trace.logInfo]

theorem generatePdf_error (env : PdfEnv) (tf fn : String) (t : Trace)
    (e : JsError) (h : pdfStepsResult env = .error e) :
    (generatePdf env tf fn t).1 = .error e ∧
    (generatePdf env tf fn t).2.cleanupCalls = t.cleanupCalls + 1 ∧
    ("Error generating PDF " ++ fn) ∈ (generatePdf env tf fn t).2.errors := by
  unfold generatePdf
  rw [h]
  have hc := closeBrowserFinally_fields env
    (removeTemporaryFile env.unlinkResult (tf ++ "/" ++ fn)
      ((Trace.logError { t with renderCalls := t.renderCalls + 1 }
        ("Error generating PDF " ++ fn))))
  have hr := removeTemporaryFile_fields env.unlinkResult (tf ++ "/" ++ fn)
    ((Trace.logError { t with renderCalls := t.renderCalls + 1 }
      ("Error generating PDF " ++ fn)))
  refine ⟨rfl, ?_, ?_⟩
  · simp_all [Trace.logError]
  · have hpre := hc.2.2.2.2.2
    have hmem : ("Error generating PDF " ++ fn) ∈
        (removeTemporaryFile env.unlinkResult (tf ++ "/" ++ fn)
          ((Trace.logError { t with renderCalls := t.renderCalls + 1 }
            ("Error generating PDF " ++ fn)))).errors := by
      simp_all [Trace.logError]
    exact hpre.subset hmem

theorem generatePdf_success (env : PdfEnv) (tf fn : String) (t : Trace)
    (h : pdfStepsResult env = .ok ()) :
    (generatePdf env tf fn t).1 = .ok (tf ++ "/" ++ fn) ∧
    (generatePdf env tf fn t).2.cleanupCalls = t.cleanupCalls := by
  unfold generatePdf
  rw [h]
  have hc := closeBrowserFinally_fields env
    ((Trace.logInfo { t with renderCalls := t.renderCalls + 1 }
      ("PDF " ++ fn ++ " generated successfully and saved to " ++
        (tf ++ "/" ++ fn))))
  refine ⟨rfl, ?_⟩
  simp_all [Trace.logInfo]

/-! ## Lemmas about the processor orchestration -/

theorem uploadPdfToS3_fields (env : Env) (now : SDate) (cfg : AppConfig)
    (pdfPath filename : String) (num ver : Option String)
    (ed : Option SDate) (t : Trace) :
    (uploadPdfToS3 env now cfg pdfPath filename num ver ed t).renderCalls =
        t.renderCalls ∧
    (uploadPdfToS3 env now cfg pdfPath filename num ver ed t).uploadCalls =
        t.uploadCalls + 1 ∧
    (uploadPdfToS3 env now cfg pdfPath filename num ver ed t).putKeys =
      (if isErr env.readFileResult = false ∧ (cfg.s3.bucket == "") = false
       then t.putKeys ++
         [s3ObjectKey (calculateRetentionPeriod now cfg.s3 ed) num ver
           filename]
       else t.putKeys) := by
  unfold uploadPdfToS3
  have h1 := uploadPdf_trace env.readFileResult env.putResult
    env.unlinkResult now cfg.s3 pdfPath filename num ver ed t
  have h2 := uploadPdf_putKeys env.readFileResult env.putResult
    env.unlinkResult now cfg.s3 pdfPath filename num ver ed t
  rcases hu : uploadPdf env.readFileResult env.putResult env.unlinkResult
      now cfg.s3 pdfPath filename num ver ed t with ⟨res, t2⟩
  rw [hu] at h1 h2
  rcases res with e | o
  · simp_all [Trace.logError]
  · rcases o with _ | r <;> simp_all [Trace.logInfo, Trace.logError]

theorem generateAndUploadPdf_eq (env : Env) (now : SDate) (cfg : AppConfig)
    (data : PayloadData) (t : Trace) :
    generateAndUploadPdf env now cfg data t =
      (match generatePdf env.pdfEnv cfg.tmpPdfFolder (agreementFilename data)
          (t.logInfo ("Generating Agreement " ++ jsStr data.agreementNumber ++
            "-" ++ jsStr data.version ++ " PDF from agreement URL")) with
       | (.error _, t) =>
         (.ok "", t.logError ("Failed to generate agreement " ++
           jsStr data.agreementNumber ++ "-" ++ jsStr data.version ++
           " PDF from URL"))
       | (.ok pdfPath, t) =>
         (.ok pdfPath,
          uploadPdfToS3 env now cfg pdfPath (agreementFilename data)
            data.agreementNumber data.version (data.agreementEndData.bind id)
            (t.logInfo ("PDF " ++ agreementFilename data ++
              " generated successfully and save to " ++ pdfPath)))) := by
  simp only [generateAndUploadPdf, agreementFilename]

theorem generateAndUploadPdf_never_raises (env : Env) (now : SDate)
    (cfg : AppConfig) (data : PayloadData) (t : Trace) :
    isErr (generateAndUploadPdf env now cfg data t).1 = false := by
  rw [generateAndUploadPdf_eq]
  rcases hg : generatePdf env.pdfEnv cfg.tmpPdfFolder
      (agreementFilename data)
      (t.logInfo ("Generating Agreement " ++ jsStr data.agreementNumber ++
        "-" ++ jsStr data.version ++ " PDF from agreement URL"))
    with ⟨res, t2⟩
  cases res <;> simp [isErr]

theorem generateAndUploadPdf_render_fail (env : Env) (now : SDate)
    (cfg : AppConfig) (data : PayloadData) (t : Trace) (e : JsError)
    (h : pdfStepsResult env.pdfEnv = .error e) :
    (generateAndUploadPdf env now cfg data t).1 = .ok "" ∧
    (generateAndUploadPdf env now cfg data t).2.uploadCalls =
      t.uploadCalls := by
  rw [generateAndUploadPdf_eq]
  have hf := generatePdf_fst env.pdfEnv cfg.tmpPdfFolder
    (agreementFilename data)
    (t.logInfo ("Generating Agreement " ++ jsStr data.agreementNumber ++
      "-" ++ jsStr data.version ++ " PDF from agreement URL"))
  have ht := generatePdf_renderCalls env.pdfEnv cfg.tmpPdfFolder
    (agreementFilename data)
    (t.logInfo ("Generating Agreement " ++ jsStr data.agreementNumber ++
      "-" ++ jsStr data.version ++ " PDF from agreement URL"))
  rcases hg : generatePdf env.pdfEnv cfg.tmpPdfFolder
      (agreementFilename data)
      (t.logInfo ("Generating Agreement " ++ jsStr data.agreementNumber ++
        "-" ++ jsStr data.version ++ " PDF from agreement URL"))
    with ⟨res, t2⟩
  rw [hg] at hf ht
  rw [h] at hf
  rcases res with e' | p
  · simp_all [Trace.logError, Trace.logInfo]
  · simp at hf

theorem generateAndUploadPdf_render_ok (env : Env) (now : SDate)
    (cfg : AppConfig) (data : PayloadData) (t : Trace)
    (h : pdfStepsResult env.pdfEnv = .ok ()) :
    (generateAndUploadPdf env now cfg data t).1 =
      .ok (cfg.tmpPdfFolder ++ "/" ++ agreementFilename data) ∧
    (generateAndUploadPdf env now cfg data t).2.uploadCalls =
      t.uploadCalls + 1 ∧
    (generateAndUploadPdf env now cfg data t).2.putKeys =
      (if isErr env.readFileResult = false ∧ (cfg.s3.bucket == "") = false
       then t.putKeys ++
         [s3ObjectKey
           (calculateRetentionPeriod now cfg.s3
             (data.agreementEndData.bind id))
           data.agreementNumber data.version (agreementFilename data)]
       else t.putKeys) := by
  rw [generateAndUploadPdf_eq]
  have hf := generatePdf_fst env.pdfEnv cfg.tmpPdfFolder
    (agreementFilename data)
    (t.logInfo ("Generating Agreement " ++ jsStr data.agreementNumber ++
      "-" ++ jsStr data.version ++ " PDF from agreement URL"))
  have ht := generatePdf_renderCalls env.pdfEnv cfg.tmpPdfFolder
    (agreementFilename data)
    (t.logInfo ("Generating Agreement " ++ jsStr data.agreementNumber ++
      "-" ++ jsStr data.version ++ " PDF from agreement URL"))
  rcases hg : generatePdf env.pdfEnv cfg.tmpPdfFolder
      (agreementFilename data)
      (t.logInfo ("Generating Agreement " ++ jsStr data.agreementNumber ++
        "-" ++ jsStr data.version ++ " PDF from agreement URL"))
    with ⟨res, t2⟩
  rw [hg] at hf ht
  rw [h] at hf
  rcases res with e' | p
  · simp at hf
  · simp at hf
    subst hf
    have hu := uploadPdfToS3_fields env now cfg
      (cfg.tmpPdfFolder ++ "/" ++ agreementFilename data)
      (agreementFilename data) data.agreementNumber data.version
      (data.agreementEndData.bind id)
      (t2.logInfo ("PDF " ++ agreementFilename data ++
        " generated successfully and save to " ++
        (cfg.tmpPdfFolder ++ "/" ++ agreementFilename data)))
    simp_all [Trace.logInfo]

/-! ## Lemmas about the event handler's gating -/

theorem handleEvent_no_marker (env : Env) (now : SDate) (cfg : AppConfig)
    (payload : Payload) (t : Trace) (h : typeMatches payload = false) :
    handleEvent env now cfg payload t =
      (.error (.error "Unrecognized event type"), t) := by
  unfold typeMatches eventMarker at h
  unfold handleEvent
  simp [h]

theorem handleEvent_marker (env : Env) (now : SDate) (cfg : AppConfig)
    (payload : Payload) (t : Trace) (h : typeMatches payload = true) :
    handleEvent env now cfg payload t =
      processOfferAcceptedEvent env now cfg payload t := by
  unfold typeMatches eventMarker at h
  unfold handleEvent
  simp [h]

theorem poe_no_url (env : Env) (now : SDate) (cfg : AppConfig)
    (payload : Payload) (t : Trace) (h : hasUrl payload = false) :
    processOfferAcceptedEvent env now cfg payload t =
      (.ok "", t.logInfo "Processing agreement offer from event") := by
  unfold hasUrl at h
  unfold processOfferAcceptedEvent
  rcases hd : payload.data with _ | data
  · simp
  · rw [hd] at h
    simp only [Option.bind] at h
    simp [h]

theorem poe_wrong_status (env : Env) (now : SDate) (cfg : AppConfig)
    (payload : Payload) (t : Trace) (data : PayloadData)
    (hd : payload.data = some data) (h1 : hasUrl payload = true)
    (h2 : statusAccepted payload = false) :
    processOfferAcceptedEvent env now cfg payload t =
      (.ok "", (t.logInfo "Processing agreement offer from event").logInfo
        ("Skipping PDF generation for status: " ++ jsStr data.status)) := by
  unfold hasUrl at h1
  unfold statusAccepted at h2
  rw [hd] at h1 h2
  simp only [Option.bind] at h1 h2
  have h2' : data.status ≠ some "accepted" := by simpa using h2
  unfold processOfferAcceptedEvent
  rw [hd]
  simp [h1, h2']

theorem poe_url_parse_fail (env : Env) (now : SDate) (cfg : AppConfig)
    (payload : Payload) (t : Trace) (data : PayloadData)
    (hd : payload.data = some data) (h1 : hasUrl payload = true)
    (h2 : statusAccepted payload = true)
    (h3 : payloadHost payload = none) :
    processOfferAcceptedEvent env now cfg payload t =
      (.error (.typeError "Invalid URL"),
       t.logInfo "Processing agreement offer from event") := by
  unfold hasUrl at h1
  unfold statusAccepted at h2
  unfold payloadHost at h3
  rw [hd] at h1 h2 h3
  simp only [Option.bind] at h1 h2
  simp only [] at h3
  have h2' : data.status = some "accepted" := by simpa using h2
  unfold processOfferAcceptedEvent isUrlDomainAllowed
  rw [hd]
  simp [h1, h2', h3]

theorem poe_host_not_allowed (env : Env) (now : SDate) (cfg : AppConfig)
    (payload : Payload) (t : Trace) (data : PayloadData) (hst : String)
    (hd : payload.data = some data) (h1 : hasUrl payload = true)
    (h2 : statusAccepted payload = true)
    (h3 : payloadHost payload = some hst)
    (h4 : cfg.allowedDomains.contains hst = false) :
    processOfferAcceptedEvent env now cfg payload t =
      (.ok "", (t.logInfo "Processing agreement offer from event").logWarn
        ("Skipping PDF generation for URL: " ++ jsStr data.agreementUrl ++
          " domain is not on allow list")) := by
  unfold hasUrl at h1
  unfold statusAccepted at h2
  unfold payloadHost at h3
  rw [hd] at h1 h2 h3
  simp only [Option.bind] at h1 h2
  simp only [] at h3
  have h2' : data.status = some "accepted" := by simpa using h2
  have h4' : hst ∉ cfg.allowedDomains := by simpa using h4
  unfold processOfferAcceptedEvent isUrlDomainAllowed
  rw [hd]
  simp [h1, h2', h3, h4']

theorem poe_allowed (env : Env) (now : SDate) (cfg : AppConfig)
    (payload : Payload) (t : Trace) (data : PayloadData) (hst : String)
    (hd : payload.data = some data) (h1 : hasUrl payload = true)
    (h2 : statusAccepted payload = true)
    (h3 : payloadHost payload = some hst)
    (h4 : cfg.allowedDomains.contains hst = true) :
    processOfferAcceptedEvent env now cfg payload t =
      generateAndUploadPdf env now cfg data
        (t.logInfo "Processing agreement offer from event") := by
  unfold hasUrl at h1
  unfold statusAccepted at h2
  unfold payloadHost at h3
  rw [hd] at h1 h2 h3
  simp only [Option.bind] at h1 h2
  simp only [] at h3
  have h2' : data.status = some "accepted" := by simpa using h2
  have h4' : hst ∈ cfg.allowedDomains := by simpa using h4
  unfold processOfferAcceptedEvent isUrlDomainAllowed
  rw [hd]
  simp [h1, h2', h3, h4']

theorem hasUrl_some (payload : Payload) (h : hasUrl payload = true) :
    ∃ data, payload.data = some data := by
  unfold hasUrl at h
  rcases hd : payload.data with _ | data
  · rw [hd] at h; simp [jsTruthy] at h
  · exact ⟨data, rfl⟩

theorem hostAllowed_some (cfg : AppConfig) (payload : Payload)
    (h : hostAllowed cfg payload = true) :
    ∃ hst, payloadHost payload = some hst ∧
      cfg.allowedDomains.contains hst = true := by
  unfold hostAllowed at h
  rcases hh : payloadHost payload with _ | hst
  · rw [hh] at h; simp at h
  · rw [hh] at h; exact ⟨hst, rfl, h⟩

theorem pdfStepsResult_ok (env : PdfEnv) (h : pdfStepsResult env = .ok ()) :
    env.accessResult = .ok () := by
  obtain ⟨s1, s2, s3, s4, s5, s6, s7, s8, s9, s10, s11, s12, d⟩ := env
  unfold pdfStepsResult at h
  simp only [bind, Except.bind] at h
  cases s1 <;> simp_all
  cases s2 <;> simp_all
  cases s3 <;> simp_all
  cases s4 <;> simp_all
  cases s5 <;> simp_all
  cases s6 <;> simp_all
  cases s7 <;> simp_all
  cases s8 <;> simp_all
  cases s9 <;> simp_all

theorem calcRetention_none (now : SDate) (s3cfg : S3Config) :
    calculateRetentionPeriod now s3cfg none = s3cfg.maximumTermPrefix := by
  unfold calculateRetentionPeriod jsLeNaN
  simp

theorem handleEvent_error_values (env : Env) (now : SDate)
    (cfg : AppConfig) (payload : Payload) (t : Trace) (e : JsError)
    (h : (handleEvent env now cfg payload t).1 = .error e) :
    e = .error "Unrecognized event type" ∨ e = .typeError "Invalid URL" := by
  by_cases ht : typeMatches payload = true
  · rw [handleEvent_marker env now cfg payload t ht] at h
    by_cases hu : hasUrl payload = true
    · obtain ⟨data, hd⟩ := hasUrl_some payload hu
      by_cases hs : statusAccepted payload = true
      · rcases hh : payloadHost payload with _ | hst
        · rw [poe_url_parse_fail env now cfg payload t data hd hu hs hh] at h
          simp at h
          right
          exact h.symm
        · by_cases ha : cfg.allowedDomains.contains hst = true
          · rw [poe_allowed env now cfg payload t data hst hd hu hs hh ha]
              at h
            have hnr := generateAndUploadPdf_never_raises env now cfg data
              (t.logInfo "Processing agreement offer from event")
            rw [h] at hnr
            simp [isErr] at hnr
          · have ha' : cfg.allowedDomains.contains hst = false := by
              simpa using ha
            rw [poe_host_not_allowed env now cfg payload t data hst hd hu hs
              hh ha'] at h
            simp at h
      · have hs' : statusAccepted payload = false := by simpa using hs
        rw [poe_wrong_status env now cfg payload t data hd hu hs'] at h
        simp at h
    · have hu' : hasUrl payload = false := by simpa using hu
      rw [poe_no_url env now cfg payload t hu'] at h
      simp at h
  · have ht' : typeMatches payload = false := by simpa using ht
    rw [handleEvent_no_marker env now cfg payload t ht'] at h
    simp at h
    left; rw [h]

theorem processMessage_none (env : Env) (now : SDate) (cfg : AppConfig)
    (t : Trace) :
    processMessage env now cfg ⟨none⟩ t =
      (.error (handleProcessingError
          (.syntaxError "Unexpected token in JSON") none t).1,
       (handleProcessingError
          (.syntaxError "Unexpected token in JSON") none t).2) := rfl

theorem processMessage_some (env : Env) (now : SDate) (cfg : AppConfig)
    (payload : Payload) (t : Trace) :
    processMessage env now cfg ⟨some payload⟩ t =
      (match handleEvent env now cfg payload
          (t.logInfo "Processing message body") with
       | (.ok _, t2) => (.ok (), t2)
       | (.error e, t2) =>
         (.error (handleProcessingError e (some payload) t2).1,
          (handleProcessingError e (some payload) t2).2)) := rfl

/-! ## Lemmas about the retention-date arithmetic -/

theorem mdCompare_eq (a b : SDate) :
    compareAsc (mdDate a) (mdDate b) =
      (if mdLt a b then -1 else
       if a.month = b.month ∧ a.day = b.day then 0 else 1) := by
  obtain ⟨y1, m1, d1⟩ := a
  obtain ⟨y2, m2, d2⟩ := b
  unfold compareAsc mdDate SDate.lt mdLt
  simp only [SDate.mk.injEq, lt_self_iff_false, false_or, true_and]

theorem differenceInYears_closed (a b : SDate) :
    differenceInYears a b =
      (if SDate.lt b a then (a.year - b.year) - (if mdLt a b then 1 else 0)
       else if SDate.lt a b then
         (a.year - b.year) + (if mdLt b a then 1 else 0)
       else 0) := by
  unfold differenceInYears
  rw [mdCompare_eq]
  obtain ⟨y1, m1, d1⟩ := a
  obtain ⟨y2, m2, d2⟩ := b
  unfold compareAsc SDate.lt mdLt
  simp only [SDate.mk.injEq]
  split_ifs <;> first | rfl | exact (by assumption : False).elim | omega

theorem differenceInYears_mono (a1 a2 b : SDate) (h : SDate.le a1 a2) :
    differenceInYears a1 b ≤ differenceInYears a2 b := by
  rw [differenceInYears_closed, differenceInYears_closed]
  obtain ⟨y1, m1, d1⟩ := a1
  obtain ⟨y2, m2, d2⟩ := a2
  obtain ⟨yb, mb, db⟩ := b
  unfold SDate.le SDate.lt mdLt at *
  simp only [SDate.mk.injEq] at *
  split_ifs <;> first | exact (by assumption : False).elim | omega

theorem differenceInYears_floor (s e : SDate) (hs : s.day = 1)
    (hday : 1 ≤ e.day) (hle : SDate.le s e) :
    SDate.le (anniversary s (differenceInYears e s)) e ∧
    SDate.lt e (anniversary s (differenceInYears e s + 1)) := by
  rw [differenceInYears_closed]
  obtain ⟨ys, ms, ds⟩ := s
  obtain ⟨ye, me, de⟩ := e
  simp only at hs hday
  subst hs
  unfold anniversary SDate.le SDate.lt mdLt at *
  simp only [SDate.mk.injEq] at *
  split_ifs <;> first | exact (by assumption : False).elim | omega

theorem startOfMonth_addMonths_one (now : SDate)
    (h1 : 1 ≤ now.month) (h2 : now.month ≤ 12) :
    startOfMonth (addMonths now 1) =
      (if now.month = 12 then ⟨now.year + 1, 1, 1⟩
       else ⟨now.year, now.month + 1, 1⟩ : SDate) := by
  obtain ⟨y, m, d⟩ := now
  simp only at h1 h2
  interval_cases m <;>
    simp [startOfMonth, addMonths, SDate.mk.injEq]

theorem calculateRetentionPeriod_eq_tier (now : SDate) (s3cfg : S3Config)
    (ed : Option SDate) :
    calculateRetentionPeriod now s3cfg ed =
      tierPfx s3cfg (calculateRetentionTier now s3cfg ed) := by
  unfold calculateRetentionPeriod calculateRetentionTier tierPfx
  cases ed <;> simp only [Option.map] <;> split_ifs <;> simp_all

theorem calculateRetentionTier_mono (now : SDate) (s3cfg : S3Config)
    (d1 d2 : SDate) (h : SDate.le d1 d2) :
    tierVal (calculateRetentionTier now s3cfg (some d1)) ≤
      tierVal (calculateRetentionTier now s3cfg (some d2)) := by
  have hm := differenceInYears_mono d1 d2 (startOfMonth (addMonths now 1)) h
  unfold calculateRetentionTier jsLeNaN tierVal
  simp only [Option.map]
  split_ifs <;> simp_all <;> omega

theorem calculateRetentionTier_boundary (now : SDate) (s3cfg : S3Config)
    (e : SDate) :
    (totalYearsAt now s3cfg e = s3cfg.baseTermThreshold →
      calculateRetentionTier now s3cfg (some e) = .base) ∧
    (s3cfg.baseTermThreshold < s3cfg.extendedTermThreshold →
      totalYearsAt now s3cfg e = s3cfg.extendedTermThreshold →
      calculateRetentionTier now s3cfg (some e) = .extended) := by
  unfold totalYearsAt at *
  unfold calculateRetentionTier jsLeNaN
  simp only [Option.map]
  constructor
  · intro h1
    split_ifs with c1 <;> simp_all
  · intro h0 h1
    split_ifs with c1 c2 <;> simp_all
    omega

/-! ## Claim theorems -/

/-- C3: for every event that passes all gating checks, a renderer rejection
is absorbed — `handleEvent` resolves to the empty string and the uploader
is never invoked; when the renderer resolves, `handleEvent` resolves to the
render path whatever the uploader's outcome (in particular when the file
read, the bucket check, or the S3 put fails); and in no post-gating failure
mode does `handleEvent` raise. -/
theorem claim3_post_gating_failures (env : Env) (now : SDate)
    (cfg : AppConfig) (payload : Payload) (data : PayloadData)
    (hd : payload.data = some data) (h1 : typeMatches payload = true)
    (h2 : hasUrl payload = true) (h3 : statusAccepted payload = true)
    (h4 : hostAllowed cfg payload = true) :
    (∀ e, pdfStepsResult env.pdfEnv = .error e →
      (handleEvent env now cfg payload Trace.init).1 = .ok "" ∧
      (handleEvent env now cfg payload Trace.init).2.uploadCalls = 0) ∧
    (pdfStepsResult env.pdfEnv = .ok () →
      (handleEvent env now cfg payload Trace.init).1 =
        .ok (cfg.tmpPdfFolder ++ "/" ++ agreementFilename data)) ∧
    isErr (handleEvent env now cfg payload Trace.init).1 = false := by
  obtain ⟨hst, hh, ha⟩ := hostAllowed_some cfg payload h4
  rw [handleEvent_marker env now cfg payload Trace.init h1,
    poe_allowed env now cfg payload Trace.init data hst hd h2 h3 hh ha]
  refine ⟨?_, ?_, ?_⟩
  · intro e he
    have hrf := generateAndUploadPdf_render_fail env now cfg data
      (Trace.init.logInfo "Processing agreement offer from event") e he
    refine ⟨hrf.1, ?_⟩
    have hur := hrf.2
    simpa [Trace.logInfo, Trace.init] using hur
  · intro hok
    exact (generateAndUploadPdf_render_ok env now cfg data
      (Trace.init.logInfo "Processing agreement offer from event") hok).1
  · exact generateAndUploadPdf_never_raises env now cfg data
      (Trace.init.logInfo "Processing agreement offer from event")

/-- Witness for C3: the post-gating guarantees at a concrete accepted
event with every hypothesis discharged. -/
theorem claim3_witness :
    isErr (handleEvent allOkEnv testNow testConfig acceptedPayload
      Trace.init).1 = false :=
  (claim3_post_gating_failures allOkEnv testNow testConfig acceptedPayload
    acceptedData (by decide) (by decide) (by decide) (by decide)
    (by decide)).2.2

/-- C4 counterexample: with the S3 put rejecting, `uploadPdf` does not
raise the error to its caller — it resolves normally with `undefined`
(`none`), refuting the claim that upload failures are re-raised. -/
theorem claim4_counterexample :
    (uploadPdf (.ok ()) (.error (.error "S3 upload failed")) (.ok ())
      testNow testS3Config "/tmp/pdfs/SFI123456789-1.pdf"
      "SFI123456789-1.pdf" (some "SFI123456789") (some "1")
      (some ⟨2027, 1, 1⟩) Trace.init).1 = .ok none := by
  decide

/-- C4 (amended): when the put fails — including an empty configured
bucket name or a failing file read — the inner `upload` raises to its
caller after logging, but `uploadPdf` catches that error, logs it, and
resolves with `undefined` instead of re-raising it. -/
theorem claim4_upload_error_swallowed (rf : Except JsError Unit)
    (pr : Except JsError String) (ur : Except JsError Unit) (now : SDate)
    (s3cfg : S3Config) (pdfPath filename : String)
    (num ver : Option String) (ed : Option SDate) (t : Trace)
    (h : (isErr rf || s3cfg.bucket == "" || isErr pr) = true) :
    isErr (upload rf pr s3cfg pdfPath
      (s3ObjectKey (calculateRetentionPeriod now s3cfg ed) num ver filename)
      { t with uploadCalls := t.uploadCalls + 1 }).1 = true ∧
    (uploadPdf rf pr ur now s3cfg pdfPath filename num ver ed t).1 =
      .ok none := by
  constructor
  · rw [upload_err_iff]; exact h
  · exact (uploadPdf_none_iff rf pr ur now s3cfg pdfPath filename num ver
      ed t).mpr h

/-- Witness for C4's amended claim: an empty bucket name makes the inner
upload raise and `uploadPdf` resolve with `undefined`. -/
theorem claim4_witness :
    (uploadPdf (.ok ()) (.ok "etag-1") (.ok ()) testNow
      { testS3Config with bucket := "" } "/tmp/pdfs/SFI123456789-1.pdf"
      "SFI123456789-1.pdf" (some "SFI123456789") (some "1") none
      Trace.init).1 = .ok none :=
  (claim4_upload_error_swallowed (.ok ()) (.ok "etag-1") (.ok ()) testNow
    { testS3Config with bucket := "" } "/tmp/pdfs/SFI123456789-1.pdf"
    "SFI123456789-1.pdf" (some "SFI123456789") (some "1") none Trace.init
    (by decide)).2

/-- C5: `uploadPdf` attempts deletion of the local file exactly once
whatever the put's outcome; the deletion's own failure never raises
(`uploadPdf` still resolves), changes neither the resolved value nor the
error log, and adds exactly one warning. -/
theorem claim5_cleanup_always (rf : Except JsError Unit)
    (pr : Except JsError String) (ur : Except JsError Unit) (e : JsError)
    (now : SDate) (s3cfg : S3Config) (pdfPath filename : String)
    (num ver : Option String) (ed : Option SDate) (t : Trace) :
    (uploadPdf rf pr ur now s3cfg pdfPath filename num ver ed
        t).2.cleanupCalls = t.cleanupCalls + 1 ∧
    isErr (uploadPdf rf pr ur now s3cfg pdfPath filename num ver ed t).1 =
      false ∧
    (uploadPdf rf pr (.error e) now s3cfg pdfPath filename num ver ed
        t).1 =
      (uploadPdf rf pr (.ok ()) now s3cfg pdfPath filename num ver ed
        t).1 ∧
    (uploadPdf rf pr (.error e) now s3cfg pdfPath filename num ver ed
        t).2.errors =
      (uploadPdf rf pr (.ok ()) now s3cfg pdfPath filename num ver ed
        t).2.errors ∧
    (uploadPdf rf pr (.error e) now s3cfg pdfPath filename num ver ed
        t).2.warns =
      t.warns ++ ["Failed to cleanup local PDF file " ++ pdfPath ++ ": " ++
        e.message] := by
  exact ⟨(uploadPdf_trace rf pr ur now s3cfg pdfPath filename num ver ed
      t).1,
    uploadPdf_never_raises rf pr ur now s3cfg pdfPath filename num ver ed t,
    uploadPdf_fst_indep_unlink rf pr (.error e) (.ok ()) now s3cfg pdfPath
      filename num ver ed t,
    uploadPdf_errors_indep_unlink rf pr (.error e) (.ok ()) now s3cfg
      pdfPath filename num ver ed t,
    (uploadPdf_warns rf pr e now s3cfg pdfPath filename num ver ed t).1⟩

/-- C7: a successful upload's storage key is the retention prefix, the
agreement number, the version, and the filename
`{agreementNumber}-{version}.pdf`, joined in that order by `/` with falsy
components omitted (`s3ObjectKey` is literally that filter-and-join), and
the filename `generateAndUploadPdf` hands over is exactly
`{agreementNumber}-{version}.pdf`. -/
theorem claim7_storage_key (rf : Except JsError Unit)
    (pr : Except JsError String) (ur : Except JsError Unit) (now : SDate)
    (s3cfg : S3Config) (pdfPath : String) (data : PayloadData)
    (ed : Option SDate) (t : Trace) (r : UploadOutcome)
    (h : (uploadPdf rf pr ur now s3cfg pdfPath (agreementFilename data)
      data.agreementNumber data.version ed t).1 = .ok (some r)) :
    r.key = s3ObjectKey (calculateRetentionPeriod now s3cfg ed)
      data.agreementNumber data.version (agreementFilename data) ∧
    s3ObjectKey (calculateRetentionPeriod now s3cfg ed)
        data.agreementNumber data.version (agreementFilename data) =
      String.intercalate "/"
        ((([some (calculateRetentionPeriod now s3cfg ed),
            data.agreementNumber, data.version,
            some (agreementFilename data)] :
            List (Option String)).filter jsTruthy).map jsStr) ∧
    agreementFilename data =
      jsStr data.agreementNumber ++ "-" ++ jsStr data.version ++ ".pdf" := by
  exact ⟨(uploadPdf_some_key rf pr ur now s3cfg pdfPath
    (agreementFilename data) data.agreementNumber data.version ed t r
    h).1, rfl, rfl⟩

/-- Witness for C7: the key of a concrete successful upload. -/
theorem claim7_witness :
    ({ success := true, bucket := "test-bucket",
       key := "base/SFI123456789/1/SFI123456789-1.pdf", etag := "etag-1",
       location := "s3://test-bucket/base/SFI123456789/1/SFI123456789-1.pdf" } :
      UploadOutcome).key =
      s3ObjectKey (calculateRetentionPeriod testNow testS3Config
        (some ⟨2027, 1, 1⟩)) (some "SFI123456789") (some "1")
        (agreementFilename acceptedData) :=
  (claim7_storage_key (.ok ()) (.ok "etag-1") (.ok ()) testNow testS3Config
    "/tmp/pdfs/SFI123456789-1.pdf" acceptedData (some ⟨2027, 1, 1⟩)
    Trace.init
    { success := true, bucket := "test-bucket",
      key := "base/SFI123456789/1/SFI123456789-1.pdf", etag := "etag-1",
      location := "s3://test-bucket/base/SFI123456789/1/SFI123456789-1.pdf" }
    (by decide)).1

/-- C9: when any step of `generatePdf` fails (temp-dir preparation, browser
launch, page creation, viewport, navigation, auth header, form script,
navigation wait, PDF export, or the existence check), it logs the error,
attempts deletion of the partially written output at the computed path, and
re-raises the original error; on success it resolves with
`{tmpFolder}/{filename}`, a path whose on-disk existence check passed. -/
theorem claim9_generatePdf_failure (env : PdfEnv) (tf fn : String)
    (t : Trace) :
    (∀ e, pdfStepsResult env = .error e →
      (generatePdf env tf fn t).1 = .error e ∧
      (generatePdf env tf fn t).2.cleanupCalls = t.cleanupCalls + 1 ∧
      ("Error generating PDF " ++ fn) ∈ (generatePdf env tf fn t).2.errors) ∧
    (pdfStepsResult env = .ok () →
      (generatePdf env tf fn t).1 = .ok (tf ++ "/" ++ fn) ∧
      env.accessResult = .ok ()) := by
  refine ⟨?_, ?_⟩
  · intro e he
    exact generatePdf_error env tf fn t e he
  · intro hok
    exact ⟨(generatePdf_success env tf fn t hok).1, pdfStepsResult_ok env hok⟩

/-- C10: an absent (or unparseable) end date makes `totalYears` `NaN`, both
threshold comparisons false, and the retention prefix the maximum-term one;
and since `generateAndUploadPdf` reads the field `agreementEndData`, an
event that carries its end date only under the name `agreementEndDate` is
stored under the maximum-term prefix. -/
theorem claim10_missing_end_date (now : SDate) (s3cfg : S3Config)
    (env : Env) (cfg : AppConfig) (data : PayloadData) (t : Trace)
    (hmiss : data.agreementEndData = none)
    (hrender : pdfStepsResult env.pdfEnv = .ok ())
    (hput : isErr env.readFileResult = false ∧
      (cfg.s3.bucket == "") = false) :
    jsLeNaN none s3cfg.baseTermThreshold = false ∧
    jsLeNaN none s3cfg.extendedTermThreshold = false ∧
    calculateRetentionPeriod now s3cfg none = s3cfg.maximumTermPrefix ∧
    (generateAndUploadPdf env now cfg data t).2.putKeys =
      t.putKeys ++ [s3ObjectKey cfg.s3.maximumTermPrefix
        data.agreementNumber data.version (agreementFilename data)] := by
  refine ⟨rfl, rfl, calcRetention_none now s3cfg, ?_⟩
  have h := (generateAndUploadPdf_render_ok env now cfg data t hrender).2.2
  rw [hmiss] at h
  simp only [Option.bind] at h
  rw [calcRetention_none now cfg.s3] at h
  simp [hput] at h
  exact h

/-- Witness for C10: a concrete event carrying only `agreementEndDate` is
put under the maximum-term prefix. -/
theorem claim10_witness :
    (generateAndUploadPdf allOkEnv testNow testConfig endDateMisnamedData
      Trace.init).2.putKeys =
      Trace.init.putKeys ++ [s3ObjectKey testConfig.s3.maximumTermPrefix
        endDateMisnamedData.agreementNumber endDateMisnamedData.version
        (agreementFilename endDateMisnamedData)] :=
  (claim10_missing_end_date testNow testS3Config allOkEnv testConfig
    endDateMisnamedData Trace.init (by decide) (by decide)
    ⟨by decide, by decide⟩).2.2.2

/-- C6 counterexample: a message whose body parses and whose event passes
the type check but carries an unparseable URL makes `handleEvent` raise a
`TypeError` — not the unrecognized-event-type error — which `processMessage`
wraps and raises, refuting the parenthetical "only the
unrecognized-event-type error". -/
theorem claim6_counterexample :
    (processMessage allOkEnv testNow testConfig ⟨some badUrlPayload⟩
      Trace.init).1 =
      .error (.processingError (some badUrlPayload)
        (.typeError "Invalid URL")) ∧
    JsError.typeError "Invalid URL" ≠ .error "Unrecognized event type" := by
  exact ⟨by decide, by decide⟩

/-- C6 (amended): the only errors `processMessage` raises are (a) the
distinctly classified bad-data error when the body does not parse as JSON
and (b) the generic wrapped processing error carrying the original message
and cause for any error `handleEvent` raises — which in the current design
is the unrecognized-event-type error or the URL-parse `TypeError`; when
`handleEvent` resolves, `processMessage` resolves, acknowledging the
message. -/
theorem claim6_processMessage_errors (env : Env) (now : SDate)
    (cfg : AppConfig) (m : SqsMessage) :
    (m.body = none →
      (processMessage env now cfg m Trace.init).1 =
        .error (.badData none "Invalid message format")) ∧
    (∀ payload, m.body = some payload →
      (∀ e, (handleEvent env now cfg payload
          (Trace.init.logInfo "Processing message body")).1 = .error e →
        (processMessage env now cfg m Trace.init).1 =
          .error (.processingError m.body e) ∧
        (e = .error "Unrecognized event type" ∨
          e = .typeError "Invalid URL")) ∧
      (∀ s, (handleEvent env now cfg payload
          (Trace.init.logInfo "Processing message body")).1 = .ok s →
        (processMessage env now cfg m Trace.init).1 = .ok ())) := by
  obtain ⟨mb⟩ := m
  refine ⟨?_, ?_⟩
  · intro hb
    simp only at hb
    subst hb
    rw [processMessage_none]
    simp [handleProcessingError, JsError.name]
  · intro payload hb
    simp only at hb
    subst hb
    refine ⟨?_, ?_⟩
    · intro e he
      have hv := handleEvent_error_values env now cfg payload
        (Trace.init.logInfo "Processing message body") e he
      have hname : e.name ≠ "SyntaxError" := by
        rcases hv with h | h <;> subst h <;> simp [JsError.name]
      refine ⟨?_, hv⟩
      rw [processMessage_some]
      rcases hresult : handleEvent env now cfg payload
        (Trace.init.logInfo "Processing message body") with ⟨res, t2⟩
      rw [hresult] at he
      simp at he
      subst he
      simp [handleProcessingError, hname]
    · intro s hs
      rw [processMessage_some]
      rcases hresult : handleEvent env now cfg payload
        (Trace.init.logInfo "Processing message body") with ⟨res, t2⟩
      rw [hresult] at hs
      simp at hs
      subst hs
      simp
/-- C2: `calculateRetentionPeriod` anchors the start date to the first day
of the calendar month after `now`; computes `yearsSpan` as the floor of
whole years from that start date to the end date — the `yearsSpan`-th
anniversary of the start date is at or before the end date and the next one
strictly after, so partial years never round up; adds the configured base
retention years; and selects the prefix by inclusive ascending threshold
comparison.  The embedding is a pure function of `(now, endDate, config)`
with no effect parameters. -/
theorem claim2_retention_computation (now : SDate) (s3cfg : S3Config)
    (e : SDate) (h1 : 1 ≤ now.month) (h2 : now.month ≤ 12)
    (hday : 1 ≤ e.day)
    (hle : SDate.le (startOfMonth (addMonths now 1)) e) :
    startOfMonth (addMonths now 1) =
      (if now.month = 12 then ⟨now.year + 1, 1, 1⟩
       else ⟨now.year, now.month + 1, 1⟩ : SDate) ∧
    (SDate.le (anniversary (startOfMonth (addMonths now 1))
        (differenceInYears e (startOfMonth (addMonths now 1)))) e ∧
     SDate.lt e (anniversary (startOfMonth (addMonths now 1))
        (differenceInYears e (startOfMonth (addMonths now 1)) + 1))) ∧
    calculateRetentionPeriod now s3cfg (some e) =
      (if totalYearsAt now s3cfg e ≤ s3cfg.baseTermThreshold then
        s3cfg.baseTermPrefix
       else if totalYearsAt now s3cfg e ≤ s3cfg.extendedTermThreshold then
        s3cfg.extendedTermPrefix
       else s3cfg.maximumTermPrefix) := by
  refine ⟨startOfMonth_addMonths_one now h1 h2,
    differenceInYears_floor (startOfMonth (addMonths now 1)) e rfl hday hle,
    ?_⟩
  unfold calculateRetentionPeriod totalYearsAt jsLeNaN
  simp only [Option.map]
  split_ifs <;> simp_all

/-- Witness for C2 at a concrete clock and end date. -/
theorem claim2_witness :
    calculateRetentionPeriod testNow testS3Config (some ⟨2027, 1, 1⟩) =
      (if totalYearsAt testNow testS3Config ⟨2027, 1, 1⟩ ≤
          testS3Config.baseTermThreshold then testS3Config.baseTermPrefix
       else if totalYearsAt testNow testS3Config ⟨2027, 1, 1⟩ ≤
          testS3Config.extendedTermThreshold then
         testS3Config.extendedTermPrefix
       else testS3Config.maximumTermPrefix) :=
  (claim2_retention_computation testNow testS3Config ⟨2027, 1, 1⟩
    (by decide) (by decide) (by decide) (by decide)).2.2

/-- C8: holding `now` and the configuration fixed, the retention tier is
monotone in the end date in the order base ≤ extended ≤ maximum — and
`calculateRetentionPeriod` returns exactly the prefix of that tier; the
tier boundaries are inclusive on the lower side: `totalYears` equal to the
base threshold gives the base tier, and (for ordered thresholds) equal to
the extended threshold gives the extended tier. -/
theorem claim8_retention_monotone (now : SDate) (s3cfg : S3Config)
    (d1 d2 : SDate) (h : SDate.le d1 d2) :
    tierVal (calculateRetentionTier now s3cfg (some d1)) ≤
      tierVal (calculateRetentionTier now s3cfg (some d2)) ∧
    (∀ ed, calculateRetentionPeriod now s3cfg ed =
      tierPfx s3cfg (calculateRetentionTier now s3cfg ed)) ∧
    (totalYearsAt now s3cfg d1 = s3cfg.baseTermThreshold →
      calculateRetentionTier now s3cfg (some d1) = .base) ∧
    (s3cfg.baseTermThreshold < s3cfg.extendedTermThreshold →
      totalYearsAt now s3cfg d1 = s3cfg.extendedTermThreshold →
      calculateRetentionTier now s3cfg (some d1) = .extended) :=
  ⟨calculateRetentionTier_mono now s3cfg d1 d2 h,
    fun ed => calculateRetentionPeriod_eq_tier now s3cfg ed,
    (calculateRetentionTier_boundary now s3cfg d1).1,
    (calculateRetentionTier_boundary now s3cfg d1).2⟩

/-- Witness for C8 at two concrete ordered end dates. -/
theorem claim8_witness :
    tierVal (calculateRetentionTier testNow testS3Config
      (some ⟨2027, 1, 1⟩)) ≤
    tierVal (calculateRetentionTier testNow testS3Config
      (some ⟨2035, 1, 1⟩)) :=
  (claim8_retention_monotone testNow testS3Config ⟨2027, 1, 1⟩
    ⟨2035, 1, 1⟩ (by decide)).1

end FarmingGrantsPdf
